import Mathlib

/-!
Verification of the multi-stream recording orchestrator
(src/core/multi_stream_recorder.py and src/main.py) against its
natural-language specification.

The Python code is shallowly embedded: the streaming loop of
MultiStreamRecorder._start_recording_with_stop_event becomes a fold over a
list of per-chunk environments, the automatic-mode loop becomes a fold over
per-cycle environments, and real-time or cross-thread inputs (the value of
the stop event at each observation point, the elapsed wall-clock time at
each chunk, liveness of the room at each poll) are supplied as explicit
schedules.  Sink writes are modelled as reliable appends to a byte list;
exceptions raised while fetching chunks are modelled by a cut-off point in
the chunk list.
-/

namespace MultiStreamRecorder

/-- Bytes are modelled abstractly as natural numbers. -/
abbrev Byte := Nat

/-- buffer_size = 512 * 1024 from _start_recording_with_stop_event. -/
def BUFFER_SIZE : Nat := 512 * 1024

/-- Environment of one iteration of the for-chunk loop: the value of
stop_event.is_set() observed at the top of the body, the bytes of the chunk,
and the elapsed wall-clock seconds observed at the duration check. -/
structure ChunkStep where
  stopObserved : Bool
  data : List Byte
  elapsed : Nat
deriving Repr, DecidableEq

/-- State of the stream writer: the in-memory bytearray buffer, the bytes
written to the output file so far, a ghost log of every byte ever appended
to the buffer, the sizes of the out_file.write calls made so far, and
whether the file has been flushed. -/
structure WriterState where
  buffer : List Byte
  file : List Byte
  appended : List Byte
  writes : List Nat
  flushed : Bool
deriving Repr, DecidableEq

/-- Python truthiness of the duration check:
"if recorder.duration and elapsed_time >= recorder.duration".
A duration of None or 0 is falsy and disables the limit. -/
def durationReached (duration : Option Nat) (elapsed : Nat) : Bool :=
  match duration with
  | none => false
  | some d => decide (0 < d) && decide (d ≤ elapsed)

/-- buffer.extend(chunk) followed by the flush-on-threshold:
"if len(buffer) >= buffer_size: out_file.write(buffer); buffer.clear()". -/
def appendChunk (st : WriterState) (data : List Byte) : WriterState :=
  let buf := st.buffer ++ data
  if BUFFER_SIZE ≤ buf.length then
    { st with buffer := [], file := st.file ++ buf,
              appended := st.appended ++ data,
              writes := st.writes ++ [buf.length] }
  else
    { st with buffer := buf, appended := st.appended ++ data }

/-- How one pass of the for-chunk loop ended. -/
inductive LoopExit
  | streamEnd
  | stopBreak
  | durationBreak
  | raised
deriving Repr, DecidableEq

/-- One pass of "for chunk in recorder.tiktok.download_live_stream(live_url)"
without exceptions: check stop_event, append the chunk (flushing at the
threshold), then check the duration limit. -/
def runFor (duration : Option Nat) : List ChunkStep → WriterState → WriterState × LoopExit
  | [], st => (st, .streamEnd)
  | s :: rest, st =>
    if s.stopObserved then (st, .stopBreak)
    else
      let st := appendChunk st s.data
      if durationReached duration s.elapsed then (st, .durationBreak)
      else runFor duration rest st

/-- One pass of the for-chunk loop where an exception may be raised while
fetching: raiseAfter = some k means the source raises once k steps have been
consumed (k = 0 covers an exception from the download call itself). -/
def runForExc (duration : Option Nat) (steps : List ChunkStep)
    (raiseAfter : Option Nat) (st : WriterState) : WriterState × LoopExit :=
  match raiseAfter with
  | none => runFor duration steps st
  | some k =>
    let r := runFor duration (steps.take k) st
    match r.2 with
    | .streamEnd => (r.1, .raised)
    | e => (r.1, e)

/-- The finally clause of the streaming loop:
"if buffer: out_file.write(buffer); buffer.clear()" then "out_file.flush()". -/
def finallyFlush (st : WriterState) : WriterState :=
  let st' :=
    if st.buffer.isEmpty then st
    else { st with buffer := [], file := st.file ++ st.buffer,
                   writes := st.writes ++ [st.buffer.length] }
  { st' with flushed := true }

/-- Environment of one iteration of the outer while loop: the value of
stop_event.is_set() at the while condition, the result of the
is_room_alive poll, the chunk schedule for this download call, and the
optional exception cut-off. -/
structure RecCycle where
  stopAtHead : Bool
  roomAlive : Bool
  steps : List ChunkStep
  raiseAfter : Option Nat
deriving Repr, DecidableEq

/-- How the outer while loop of a recording attempt ended. -/
inductive AttemptEnd
  | stoppedHead
  | notAlive
  | stopChunk
  | durationHit
  | errored
  | fuelOut
deriving Repr, DecidableEq

/-- The outer while loop
"while not stop_recording and not self.stop_event.is_set()": each iteration
re-checks liveness (break if the room is no longer live), runs the
for-chunk loop inside try/except, and always runs the finally flush.  The
list of cycles is the fuel: an empty list means the schedule provides no
further iterations. -/
def recordLoop (duration : Option Nat) : List RecCycle → WriterState → WriterState × AttemptEnd
  | [], st => (st, .fuelOut)
  | c :: rest, st =>
    if c.stopAtHead then (st, .stoppedHead)
    else if c.roomAlive = false then (finallyFlush st, .notAlive)
    else
      let r := runForExc duration c.steps c.raiseAfter st
      let st' := finallyFlush r.1
      match r.2 with
      | .streamEnd => recordLoop duration rest st'
      | .stopBreak => (st', .stopChunk)
      | .durationBreak => (st', .durationHit)
      | .raised => (st', .errored)

/-- Initial writer state for a fresh output file. -/
def initWriter : WriterState := ⟨[], [], [], [], false⟩

/-- A whole recording attempt: the with-open block runs the while loop and
closing the file flushes it. -/
def recordAttempt (duration : Option Nat) (cycles : List RecCycle) : WriterState × AttemptEnd :=
  let r := recordLoop duration cycles initWriter
  ({ r.1 with flushed := true }, r.2)

/-- The flush invariant: everything ever appended to the buffer is either in
the file or still in the buffer. -/
def flushInv (st : WriterState) : Prop :=
  st.file ++ st.buffer = st.appended

theorem appendChunk_inv (st : WriterState) (data : List Byte)
    (h : flushInv st) : flushInv (appendChunk st data) := by
  unfold flushInv at h ⊢
  by_cases hb : BUFFER_SIZE ≤ st.buffer.length + data.length <;>
    simp [appendChunk, List.length_append, hb, ← h]

theorem runFor_inv (duration : Option Nat) (steps : List ChunkStep)
    (st : WriterState) (h : flushInv st) : flushInv (runFor duration steps st).1 := by
  induction steps generalizing st with
  | nil => simpa [runFor]
  | cons s rest ih =>
    unfold runFor
    by_cases hs : s.stopObserved
    · simpa [hs]
    · by_cases hd : durationReached duration s.elapsed
      · simpa [hs, hd] using appendChunk_inv st s.data h
      · simpa [hs, hd] using ih _ (appendChunk_inv st s.data h)

theorem runForExc_inv (duration : Option Nat) (steps : List ChunkStep)
    (raiseAfter : Option Nat) (st : WriterState) (h : flushInv st) :
    flushInv (runForExc duration steps raiseAfter st).1 := by
  unfold runForExc
  match raiseAfter with
  | none => exact runFor_inv duration steps st h
  | some k =>
    have := runFor_inv duration (steps.take k) st h
    cases hr : (runFor duration (steps.take k) st).2 <;> simp_all

theorem finallyFlush_inv (st : WriterState) (h : flushInv st) :
    flushInv (finallyFlush st) := by
  unfold flushInv at *
  unfold finallyFlush
  by_cases hb : st.buffer.isEmpty
  · have : st.buffer = [] := List.isEmpty_iff.mp hb
    simp [hb, this] at h ⊢
    simpa [this] using h
  · simp [hb, ← h]

theorem finallyFlush_buffer (st : WriterState) : (finallyFlush st).buffer = [] := by
  unfold finallyFlush
  by_cases hb : st.buffer.isEmpty
  · have : st.buffer = [] := List.isEmpty_iff.mp hb
    simp [hb, this]
  · simp [hb]

theorem finallyFlush_flushed (st : WriterState) : (finallyFlush st).flushed = true := by
  unfold finallyFlush
  by_cases hb : st.buffer.isEmpty <;> simp [hb]

theorem recordLoop_inv (duration : Option Nat) (cycles : List RecCycle)
    (st : WriterState) (h : flushInv st) : flushInv (recordLoop duration cycles st).1 := by
  induction cycles generalizing st with
  | nil => simpa [recordLoop]
  | cons c rest ih =>
    unfold recordLoop
    by_cases h1 : c.stopAtHead
    · simpa [h1]
    · by_cases h2 : c.roomAlive = false
      · simpa [h1, h2] using finallyFlush_inv st h
      · have hx := runForExc_inv duration c.steps c.raiseAfter st h
        have hf := finallyFlush_inv _ hx
        cases he : (runForExc duration c.steps c.raiseAfter st).2 <;>
          simp [h1, h2, he] at * <;> first | exact hf | exact ih _ hf

theorem recordLoop_buffer (duration : Option Nat) (cycles : List RecCycle)
    (st : WriterState) (h : st.buffer = []) : (recordLoop duration cycles st).1.buffer = [] := by
  induction cycles generalizing st with
  | nil => simpa [recordLoop]
  | cons c rest ih =>
    unfold recordLoop
    by_cases h1 : c.stopAtHead
    · simpa [h1]
    · by_cases h2 : c.roomAlive = false
      · simp [h1, h2, finallyFlush_buffer]
      · cases he : (runForExc duration c.steps c.raiseAfter st).2 <;>
          simp [h1, h2, he, finallyFlush_buffer, ih]

/-- C1: on every exit path of the streaming loop, all bytes that were
appended to the in-memory buffer are in the output file, the buffer is
empty, and the file has been flushed: no appended chunk is lost. -/
theorem c1_no_chunk_lost (duration : Option Nat) (cycles : List RecCycle) :
    (recordAttempt duration cycles).1.file = (recordAttempt duration cycles).1.appended ∧
    (recordAttempt duration cycles).1.buffer = [] ∧
    (recordAttempt duration cycles).1.flushed = true := by
  have hinv : flushInv (recordLoop duration cycles initWriter).1 :=
    recordLoop_inv duration cycles initWriter (by simp [flushInv, initWriter])
  have hbuf : (recordLoop duration cycles initWriter).1.buffer = [] :=
    recordLoop_buffer duration cycles initWriter (by simp [initWriter])
  unfold flushInv at hinv
  rw [hbuf] at hinv
  simp at hinv
  refine ⟨?_, ?_, ?_⟩ <;> simp [recordAttempt, hinv, hbuf]

/-- The per-second wait loop of WAITING_RETRY, started at tick t with n ticks
remaining: "for _ in range(self.automatic_interval * 60):
if self.stop_event.is_set(): return; time.sleep(1)".  Returns the tick at
which the stop event was observed set, or none when the full wait completed. -/
def retryWaitFrom (sig : Nat → Bool) : Nat → Nat → Option Nat
  | _, 0 => none
  | t, Nat.succ n => if sig t then some t else retryWaitFrom sig (t + 1) n

/-- The whole WAITING_RETRY wait: total ticks = automatic_interval * 60. -/
def retryWait (sig : Nat → Bool) (total : Nat) : Option Nat :=
  retryWaitFrom sig 0 total

theorem retryWaitFrom_early (n : Nat) :
    ∀ (t k : Nat) (sig : Nat → Bool), k < n → sig (t + k) = true →
    ∃ i, retryWaitFrom sig t n = some i ∧ i ≤ t + k ∧ sig i = true := by
  induction n with
  | zero => intro t k sig hk; omega
  | succ n ih =>
    intro t k sig hk hsig
    by_cases ht : sig t
    · exact ⟨t, by simp [retryWaitFrom, ht], Nat.le_add_right t k, ht⟩
    · cases k with
      | zero => simp at hsig; exact absurd hsig ht
      | succ k =>
        have hk' : k < n := by omega
        have hsig' : sig (t + 1 + k) = true := by
          have : t + 1 + k = t + (k + 1) := by omega
          rw [this]; exact hsig
        obtain ⟨i, hi, hle, hs⟩ := ih (t + 1) k sig hk' hsig'
        exact ⟨i, by simp [retryWaitFrom, ht, hi], by omega, hs⟩

/-- C4: (a) if the stop event is set by tick k inside the WAITING_RETRY wait,
the wait returns at some tick i ≤ k rather than completing; (b) in the
streaming loop, once a chunk step observes the stop event set, processing is
identical to a schedule with no further steps: no later chunk is appended. -/
theorem c4_cancellation_responsive :
    (∀ (total k : Nat) (sig : Nat → Bool), k < total → sig k = true →
      ∃ i, retryWait sig total = some i ∧ i ≤ k ∧ sig i = true) ∧
    (∀ (d : Option Nat) (pre : List ChunkStep) (s : ChunkStep)
       (post : List ChunkStep) (st : WriterState), s.stopObserved = true →
      runFor d (pre ++ s :: post) st = runFor d (pre ++ [s]) st) := by
  constructor
  · intro total k sig hk hs
    simpa [retryWait] using retryWaitFrom_early total 0 k sig hk (by simpa using hs)
  · intro d pre s post st hs
    induction pre generalizing st with
    | nil => simp [runFor, hs]
    | cons p pre ih =>
      by_cases hp : p.stopObserved
      · simp [runFor, hp]
      · by_cases hd : durationReached d p.elapsed
        · simp [runFor, hp, hd]
        · simp [runFor, hp, hd, ih]

/-- Witness for c4_cancellation_responsive at concrete inputs. -/
theorem c4_cancellation_responsive_witness :
    (∃ i, retryWait (fun _ => true) 2 = some i ∧ i ≤ 0 ∧ (fun _ => true) i = true) ∧
    runFor none ([] ++ (⟨true, [1], 0⟩ : ChunkStep) :: [⟨false, [2], 0⟩]) initWriter =
      runFor none ([] ++ [(⟨true, [1], 0⟩ : ChunkStep)]) initWriter :=
  ⟨c4_cancellation_responsive.1 2 0 (fun _ => true) (by decide) rfl,
   c4_cancellation_responsive.2 none [] ⟨true, [1], 0⟩ [⟨false, [2], 0⟩] initWriter rfl⟩

/-- A block of n zero bytes. -/
def zeros (n : Nat) : List Byte := List.replicate n 0

theorem length_zeros (n : Nat) : (zeros n).length = n := by
  rw [zeros, List.length_replicate]

/-- Scenario B schedule: one download pass yielding three chunks and ending,
then the next liveness poll reports the room no longer live. -/
def scenarioBCycles (a b c : List Byte) : List RecCycle :=
  [⟨false, true, [⟨false, a, 0⟩, ⟨false, b, 0⟩, ⟨false, c, 0⟩], none⟩,
   ⟨false, false, [], none⟩]

/-- C2: the writer appends each chunk and, when the buffer reaches 512 KiB
after an append, writes the whole buffer and clears it (and below the
threshold it only appends); on the three-200 KiB-chunk schedule the output
file holds exactly 600 KiB, produced by a single full-buffer write at the
threshold with nothing left for the end-of-stream flush. -/
theorem c2_buffer_threshold :
    (∀ (st : WriterState) (data : List Byte),
      BUFFER_SIZE ≤ st.buffer.length + data.length →
        (appendChunk st data).buffer = [] ∧
        (appendChunk st data).file = st.file ++ st.buffer ++ data) ∧
    (∀ (st : WriterState) (data : List Byte),
      st.buffer.length + data.length < BUFFER_SIZE →
        (appendChunk st data).buffer = st.buffer ++ data ∧
        (appendChunk st data).file = st.file) ∧
    (∀ a b c : List Byte,
      a.length = 200 * 1024 → b.length = 200 * 1024 → c.length = 200 * 1024 →
        (recordAttempt none (scenarioBCycles a b c)).1.file.length = 600 * 1024 ∧
        (recordAttempt none (scenarioBCycles a b c)).1.writes = [600 * 1024] ∧
        (recordAttempt none (scenarioBCycles a b c)).1.buffer = [] ∧
        (recordAttempt none (scenarioBCycles a b c)).2 = .notAlive) := by
  refine ⟨?_, ?_, ?_⟩
  · intro st data hb
    constructor <;> simp [appendChunk, List.length_append, hb]
  · intro st data hb
    have hb' : ¬ BUFFER_SIZE ≤ st.buffer.length + data.length := by omega
    constructor <;> simp [appendChunk, List.length_append, hb']
  · intro a b c ha hb hc
    refine ⟨?_, ?_, ?_, ?_⟩ <;>
      simp [recordAttempt, recordLoop, runForExc, runFor, appendChunk, durationReached,
        finallyFlush, scenarioBCycles, initWriter, BUFFER_SIZE,
        List.length_append, ha, hb, hc]

/-- Witness for c2_buffer_threshold at concrete inputs. -/
theorem c2_buffer_threshold_witness :
    ((appendChunk initWriter (zeros BUFFER_SIZE)).buffer = [] ∧
      (appendChunk initWriter (zeros BUFFER_SIZE)).file =
        initWriter.file ++ initWriter.buffer ++ zeros BUFFER_SIZE) ∧
    ((appendChunk initWriter [5]).buffer = initWriter.buffer ++ [5] ∧
      (appendChunk initWriter [5]).file = initWriter.file) ∧
    ((recordAttempt none
        (scenarioBCycles (zeros (200 * 1024)) (zeros (200 * 1024))
          (zeros (200 * 1024)))).1.file.length = 600 * 1024 ∧
      (recordAttempt none
        (scenarioBCycles (zeros (200 * 1024)) (zeros (200 * 1024))
          (zeros (200 * 1024)))).1.writes = [600 * 1024] ∧
      (recordAttempt none
        (scenarioBCycles (zeros (200 * 1024)) (zeros (200 * 1024))
          (zeros (200 * 1024)))).1.buffer = [] ∧
      (recordAttempt none
        (scenarioBCycles (zeros (200 * 1024)) (zeros (200 * 1024))
          (zeros (200 * 1024)))).2 = .notAlive) :=
  ⟨c2_buffer_threshold.1 initWriter (zeros BUFFER_SIZE)
      (by rw [length_zeros, initWriter]; exact Nat.le_add_left _ _),
   c2_buffer_threshold.2.1 initWriter [5] (by simp [initWriter, BUFFER_SIZE]),
   c2_buffer_threshold.2.2 (zeros (200 * 1024)) (zeros (200 * 1024))
      (zeros (200 * 1024)) (length_zeros (200 * 1024)) (length_zeros (200 * 1024))
      (length_zeros (200 * 1024))⟩

/-- A chunk step on which both the stop event is observed set and the
duration limit (5 seconds) has been exceeded. -/
def c6Step : ChunkStep := ⟨true, [7], 10⟩

/-- A recording cycle delivering c6Step. -/
def c6Cycle : RecCycle := ⟨false, true, [c6Step], none⟩

/-- C6 counterexample: with duration 5 s and a chunk step where the stop
event is set and elapsed = 10 ≥ 5, the attempt ends with the
cancellation-based exit, not the duration-based one: the claim that
duration takes precedence is false on the code, which checks the stop
event first in each chunk cycle. -/
theorem c6_counterexample :
    durationReached (some 5) c6Step.elapsed = true ∧
    c6Step.stopObserved = true ∧
    (recordAttempt (some 5) [c6Cycle]).2 = .stopChunk ∧
    (recordAttempt (some 5) [c6Cycle]).2 ≠ .durationHit := by
  refine ⟨by decide, by decide, ?_, ?_⟩ <;>
    simp [recordAttempt, recordLoop, runForExc, runFor, finallyFlush,
      c6Cycle, c6Step, initWriter]

/-- C6 amended: the streaming loop checks the cancellation signal before the
duration limit within each chunk cycle, so when both are true in the same
cycle the exit is the cancellation-based one (the chunk is not appended and
recording stops either way). -/
theorem c6_cancellation_precedes_duration (d : Option Nat) (s : ChunkStep)
    (rest : List ChunkStep) (st : WriterState)
    (hstop : s.stopObserved = true) (hdur : durationReached d s.elapsed = true) :
    runFor d (s :: rest) st = (st, .stopBreak) := by
  simp [runFor, hstop]

/-- Witness for c6_cancellation_precedes_duration at concrete inputs. -/
theorem c6_cancellation_precedes_duration_witness :
    runFor (some 5) (c6Step :: []) initWriter = (initWriter, .stopBreak) :=
  c6_cancellation_precedes_duration (some 5) c6Step [] initWriter rfl (by decide)

/-- Environment of one manual-mode entry (_manual_mode_with_stop_event and
the _start_recording_with_stop_event it calls): the stop event value at
entry, the is_room_alive result, whether get_live_url returns a non-empty
URL, and the streaming-loop schedule used when recording starts. -/
structure ManualEnv where
  stopSet : Bool
  isLive : Bool
  liveUrl : Bool
  recCycles : List RecCycle
deriving Repr, DecidableEq

/-- Result of one manual-mode entry: a plain return on an already-set stop
event, a UserLiveException when the room is not live, a plain Exception when
no live URL is returned, or a completed recording attempt. -/
inductive ManualResult
  | earlyReturn
  | excUserLive
  | excNoUrl
  | recorded (st : WriterState) (e : AttemptEnd)
deriving Repr, DecidableEq

/-- One manual-mode entry.  The second component records whether the
is_room_alive liveness check was reached.  The output file is opened only on
the recorded path, after the liveness check and the live-URL retrieval have
both succeeded. -/
def manualMode (duration : Option Nat) (env : ManualEnv) : ManualResult × Bool :=
  if env.stopSet then (.earlyReturn, false)
  else if env.isLive = false then (.excUserLive, true)
  else if env.liveUrl = false then (.excNoUrl, true)
  else
    let r := recordAttempt duration env.recCycles
    (.recorded r.1 r.2, true)

/-- Whether a manual-mode entry opened an output file: only the recorded
path reaches the open call in _start_recording_with_stop_event. -/
def fileCreated : ManualResult → Bool
  | .recorded _ _ => true
  | _ => false

/-- Terminal phase of a MANUAL-mode task, as classified by the specification
state machine: exceptions propagate to _record_stream, are logged, and the
thread terminates. -/
inductive Phase
  | finished
  | stopped
  | failed
  | waitingRetry
deriving Repr, DecidableEq

/-- Phase reached by a MANUAL-mode task. -/
def manualTaskPhase (duration : Option Nat) (env : ManualEnv) : Phase :=
  match (manualMode duration env).1 with
  | .earlyReturn => .stopped
  | .excUserLive => .failed
  | .excNoUrl => .failed
  | .recorded _ _ => .finished

/-- Result of get_room_id_from_user at the top of an automatic-mode cycle:
success, a UserLiveException, or another exception. -/
inductive ResolveRes
  | ok
  | errUser
  | errOther
deriving Repr, DecidableEq

/-- Environment of one iteration of the automatic-mode while loop: the stop
event value at the loop head, the resolution result, the manual-mode
environment for this cycle, and the stop event schedule observed during a
WAITING_RETRY wait entered from this cycle. -/
structure AutoCycle where
  stopAtHead : Bool
  resolve : ResolveRes
  env : ManualEnv
  waitSig : Nat → Bool

/-- Where one automatic-mode cycle routes: the loop exits at the head
because the stop event is set, the cycle enters the WAITING_RETRY wait
(UserLiveException caught), the cycle breaks out of the loop (any other
exception caught), or the loop continues with the next cycle. -/
inductive CycleRoute
  | exitStopped
  | toWait
  | broke
  | continues
deriving Repr, DecidableEq

/-- Routing of one automatic-mode cycle, following
_automatic_mode_with_stop_event: "except UserLiveException" waits for the
interval, "except Exception" breaks out of the loop. -/
def cycleRoute (duration : Option Nat) (c : AutoCycle) : CycleRoute :=
  if c.stopAtHead then .exitStopped
  else
    match c.resolve with
    | .errOther => .broke
    | .errUser => .toWait
    | .ok =>
      match (manualMode duration c.env).1 with
      | .excUserLive => .toWait
      | .excNoUrl => .broke
      | _ => .continues

/-- How an automatic-mode task ended on a finite schedule of cycles. -/
inductive AutoOutcome
  | stoppedAtHead
  | stoppedInWait
  | failedBreak
  | fuelOut
deriving Repr, DecidableEq

/-- The automatic-mode while loop over a finite schedule of cycles:
interval is automatic_interval in minutes, so each WAITING_RETRY wait checks
the stop event for interval * 60 ticks. -/
def autoRun (duration : Option Nat) (interval : Nat) : List AutoCycle → AutoOutcome
  | [] => .fuelOut
  | c :: rest =>
    match cycleRoute duration c with
    | .exitStopped => .stoppedAtHead
    | .broke => .failedBreak
    | .toWait =>
      match retryWait c.waitSig (interval * 60) with
      | some _ => .stoppedInWait
      | none => autoRun duration interval rest
    | .continues => autoRun duration interval rest

/-- The concrete no-live-URL cycle: stop event unset, resolution succeeds,
the room is live, get_live_url returns nothing. -/
def noUrlCycle : AutoCycle :=
  ⟨false, .ok, ⟨false, true, false, []⟩, fun _ => false⟩

/-- C3 counterexample: in AUTOMATIC mode, when the liveness check succeeds
but no live-stream URL is returned, the raised exception is a plain
Exception, caught by the generic handler that breaks out of the loop: the
cycle routes to a terminating break, not to WAITING_RETRY as the claim
states. -/
theorem c3_counterexample :
    cycleRoute none noUrlCycle = .broke ∧
    cycleRoute none noUrlCycle ≠ .toWait ∧
    autoRun none 1 [noUrlCycle] = .failedBreak := by
  refine ⟨?_, ?_, ?_⟩ <;> simp [cycleRoute, autoRun, manualMode, noUrlCycle]

/-- C3 amended: when the liveness check succeeds but no live URL is
returned, the attempt raises a plain Exception; in MANUAL mode the task
terminates as FAILED, and in AUTOMATIC mode the generic exception handler
breaks out of the polling loop, so the task terminates as well instead of
transitioning to WAITING_RETRY. -/
theorem c3_no_url_terminates (duration : Option Nat) (env : ManualEnv)
    (c : AutoCycle) (h1 : env.stopSet = false) (h2 : env.isLive = true)
    (h3 : env.liveUrl = false) (h4 : c.stopAtHead = false)
    (h5 : c.resolve = .ok) (h6 : c.env = env) :
    (manualMode duration env).1 = .excNoUrl ∧
    manualTaskPhase duration env = .failed ∧
    cycleRoute duration c = .broke ∧
    (∀ rest, autoRun duration 1 (c :: rest) = .failedBreak) := by
  have hm : (manualMode duration env).1 = .excNoUrl := by
    simp [manualMode, h1, h2, h3]
  refine ⟨hm, ?_, ?_, ?_⟩
  · simp [manualTaskPhase, hm]
  · simp [cycleRoute, h4, h5, h6, hm]
  · intro rest
    simp [autoRun, cycleRoute, h4, h5, h6, hm]

/-- Witness for c3_no_url_terminates at concrete inputs. -/
theorem c3_no_url_terminates_witness :
    (manualMode none noUrlCycle.env).1 = .excNoUrl ∧
    manualTaskPhase none noUrlCycle.env = .failed ∧
    cycleRoute none noUrlCycle = .broke ∧
    (∀ rest, autoRun none 1 (noUrlCycle :: rest) = .failedBreak) :=
  c3_no_url_terminates none noUrlCycle.env noUrlCycle rfl rfl rfl rfl rfl rfl

/-- Operations the code performs on the shared threading.Event: only set
(in stop_all_recordings) and is_set reads; clear is never called. -/
inductive EventOp
  | set
  | isSet
deriving Repr, DecidableEq

/-- Effect of one event operation on the flag value. -/
def eventApply (b : Bool) : EventOp → Bool
  | .set => true
  | .isSet => b

/-- Value of the flag after a sequence of operations. -/
def eventRun (b : Bool) (ops : List EventOp) : Bool :=
  ops.foldl eventApply b

theorem eventRun_true (ops : List EventOp) : eventRun true ops = true := by
  induction ops with
  | nil => rfl
  | cons op rest ih => cases op <;> simpa [eventRun, eventApply] using ih

/-- C5: the cancellation signal never resets once set (the code only ever
sets or reads the event), and a task that observes it set starts no new
recording attempt: the manual entry point returns without reaching the
liveness check, the automatic loop exits at its head, and the streaming
loop ends without running another iteration. -/
theorem c5_signal_latch :
    (∀ (ops : List EventOp) (b : Bool), b = true → eventRun b ops = true) ∧
    (∀ (duration : Option Nat) (env : ManualEnv), env.stopSet = true →
      manualMode duration env = (.earlyReturn, false)) ∧
    (∀ (duration : Option Nat) (interval : Nat) (c : AutoCycle)
       (rest : List AutoCycle), c.stopAtHead = true →
      autoRun duration interval (c :: rest) = .stoppedAtHead) ∧
    (∀ (duration : Option Nat) (c : RecCycle) (rest : List RecCycle)
       (st : WriterState), c.stopAtHead = true →
      recordLoop duration (c :: rest) st = (st, .stoppedHead)) := by
  refine ⟨?_, ?_, ?_, ?_⟩
  · intro ops b hb; subst hb; exact eventRun_true ops
  · intro duration env h; simp [manualMode, h]
  · intro duration interval c rest h; simp [autoRun, cycleRoute, h]
  · intro duration c rest st h; simp [recordLoop, h]

/-- Witness for c5_signal_latch at concrete inputs. -/
theorem c5_signal_latch_witness :
    eventRun true [.isSet, .set, .isSet] = true ∧
    manualMode none ⟨true, true, true, []⟩ = (.earlyReturn, false) ∧
    autoRun none 1 [⟨true, .ok, ⟨false, true, true, []⟩, fun _ => false⟩] = .stoppedAtHead ∧
    recordLoop none [⟨true, true, [], none⟩] initWriter = (initWriter, .stoppedHead) :=
  ⟨c5_signal_latch.1 [.isSet, .set, .isSet] true rfl,
   c5_signal_latch.2.1 none ⟨true, true, true, []⟩ rfl,
   c5_signal_latch.2.2.1 none 1 ⟨true, .ok, ⟨false, true, true, []⟩, fun _ => false⟩ [] rfl,
   c5_signal_latch.2.2.2 none ⟨true, true, [], none⟩ [] initWriter rfl⟩

/-- C8: in MANUAL mode, a target that is not live yields the
UserLiveException result immediately after the liveness check, the task
phase is FAILED, and no output file is created; moreover a file is created
only when the stop event was unset and both the liveness check and the
live-URL retrieval succeeded. -/
theorem c8_manual_not_live_fails (duration : Option Nat) (env : ManualEnv)
    (h1 : env.stopSet = false) (h2 : env.isLive = false) :
    (manualMode duration env).1 = .excUserLive ∧
    (manualMode duration env).2 = true ∧
    manualTaskPhase duration env = .failed ∧
    fileCreated (manualMode duration env).1 = false ∧
    (∀ (d : Option Nat) (e : ManualEnv), fileCreated (manualMode d e).1 = true →
      e.stopSet = false ∧ e.isLive = true ∧ e.liveUrl = true) := by
  have hm : (manualMode duration env).1 = .excUserLive := by
    simp [manualMode, h1, h2]
  refine ⟨hm, ?_, ?_, ?_, ?_⟩
  · simp [manualMode, h1, h2]
  · simp [manualTaskPhase, hm]
  · simp [hm, fileCreated]
  · intro d e hf
    by_cases hs : e.stopSet
    · simp [manualMode, hs, fileCreated] at hf
    · by_cases hl : e.isLive
      · by_cases hu : e.liveUrl
        · exact ⟨by simpa using hs, hl, hu⟩
        · simp [manualMode, hs, hl, hu, fileCreated] at hf
      · simp [manualMode, hs, hl, fileCreated] at hf

/-- Witness for c8_manual_not_live_fails at concrete inputs. -/
theorem c8_manual_not_live_fails_witness :
    (manualMode none ⟨false, false, false, []⟩).1 = .excUserLive ∧
    (manualMode none ⟨false, false, false, []⟩).2 = true ∧
    manualTaskPhase none ⟨false, false, false, []⟩ = .failed ∧
    fileCreated (manualMode none ⟨false, false, false, []⟩).1 = false ∧
    (∀ (d : Option Nat) (e : ManualEnv), fileCreated (manualMode d e).1 = true →
      e.stopSet = false ∧ e.isLive = true ∧ e.liveUrl = true) :=
  c8_manual_not_live_fails none ⟨false, false, false, []⟩ rfl rfl

/-- Python str.endswith over the character data of the strings. -/
def strEndsWith (s pat : String) : Bool :=
  pat.data.isSuffixOf s.data

/-- Normalization of the configured output directory in
_start_recording_with_stop_event (posix branch of os.name): a falsy output
becomes the empty string, and a non-empty directory gets a trailing slash
unless it already ends in a slash or backslash. -/
def normalizeBase (output : Option String) : String :=
  match output with
  | none => ""
  | some s =>
    if s = "" then ""
    else if strEndsWith s "/" || strEndsWith s "\\" then s
    else s ++ "/"

/-- user_folder = f-string of the normalized base and the username. -/
def userFolder (output : Option String) (user : String) : String :=
  normalizeBase output ++ user ++ "/"

/-- output_suffix = "_" + thread_name when more than one target is being
recorded, otherwise empty. -/
def outputSuffix (numTargets : Nat) (threadName : String) : String :=
  if 1 < numTargets then "_" ++ threadName else ""

/-- The full output path built in _start_recording_with_stop_event. -/
def outputPath (output : Option String) (user date threadName : String)
    (numTargets : Nat) : String :=
  userFolder output user ++ "TK_" ++ user ++ "_" ++ date ++
    outputSuffix numTargets threadName ++ "_flv.mp4"

/-- Filesystem actions of a recording attempt, in program order. -/
inductive FsEvent
  | mkdir (path : String)
  | openFile (path : String)
  | writeBytes (n : Nat)
  | closeFile
deriving Repr, DecidableEq

/-- Filesystem actions of one recording attempt in the order the code
performs them: os.makedirs for the user folder, then open of the output
file, then the writes of the streaming loop, then close. -/
def attemptFsEvents (output : Option String) (user date threadName : String)
    (numTargets : Nat) (ws : List Nat) : List FsEvent :=
  .mkdir (userFolder output user) ::
    .openFile (outputPath output user date threadName numTargets) ::
    (ws.map FsEvent.writeBytes ++ [.closeFile])

/-- C7: with a configured output directory that does not already end in a
path separator, the output file path is
out/user/TK_user_date[_threadName]_flv.mp4, the _threadName part is present
exactly when more than one target is recorded, and the per-user directory
creation precedes the file open, which precedes every write. -/
theorem c7_output_path (out user date threadName : String) (n : Nat)
    (ws : List Nat) (h1 : out ≠ "") (h2 : strEndsWith out "/" = false)
    (h3 : strEndsWith out "\\" = false) :
    outputPath (some out) user date threadName n =
      out ++ "/" ++ user ++ "/" ++ "TK_" ++ user ++ "_" ++ date ++
        (if 1 < n then "_" ++ threadName else "") ++ "_flv.mp4" ∧
    (1 < n → outputSuffix n threadName = "_" ++ threadName) ∧
    (n ≤ 1 → outputSuffix n threadName = "") ∧
    (attemptFsEvents (some out) user date threadName n ws).get? 0 =
      some (.mkdir (userFolder (some out) user)) ∧
    (attemptFsEvents (some out) user date threadName n ws).get? 1 =
      some (.openFile (outputPath (some out) user date threadName n)) ∧
    (∀ i m, (attemptFsEvents (some out) user date threadName n ws).get? i =
      some (.writeBytes m) → 2 ≤ i) := by
  refine ⟨?_, ?_, ?_, rfl, rfl, ?_⟩
  · simp [outputPath, userFolder, normalizeBase, outputSuffix, h1, h2, h3,
      String.append_assoc]
  · intro h; simp [outputSuffix, h]
  · intro h
    have : ¬ 1 < n := by omega
    simp [outputSuffix, this]
  · intro i m hi
    match i with
    | 0 => simp [attemptFsEvents] at hi
    | 1 => simp [attemptFsEvents] at hi
    | Nat.succ (Nat.succ k) => omega

/-- Witness for c7_output_path at concrete inputs. -/
theorem c7_output_path_witness :
    outputPath (some "rec") "alice" "2024.01.02_03-04-05" "Stream-1-alice" 2 =
      "rec" ++ "/" ++ "alice" ++ "/" ++ "TK_" ++ "alice" ++ "_" ++
        "2024.01.02_03-04-05" ++
        (if 1 < 2 then "_" ++ "Stream-1-alice" else "") ++ "_flv.mp4" ∧
    (1 < 2 → outputSuffix 2 "Stream-1-alice" = "_" ++ "Stream-1-alice") ∧
    (2 ≤ 1 → outputSuffix 2 "Stream-1-alice" = "") ∧
    (attemptFsEvents (some "rec") "alice" "2024.01.02_03-04-05" "Stream-1-alice" 2
        [614400]).get? 0 = some (.mkdir (userFolder (some "rec") "alice")) ∧
    (attemptFsEvents (some "rec") "alice" "2024.01.02_03-04-05" "Stream-1-alice" 2
        [614400]).get? 1 =
      some (.openFile (outputPath (some "rec") "alice" "2024.01.02_03-04-05"
        "Stream-1-alice" 2)) ∧
    (∀ i m, (attemptFsEvents (some "rec") "alice" "2024.01.02_03-04-05"
        "Stream-1-alice" 2 [614400]).get? i = some (.writeBytes m) → 2 ≤ i) :=
  c7_output_path "rec" "alice" "2024.01.02_03-04-05" "Stream-1-alice" 2 [614400]
    (by simp) (by decide) (by decide)

/-- A target as passed to MultiStreamRecorder: (url, user, room_id). -/
abbrev TargetSpec := Option String × Option String × Option String

/-- Events emitted by the orchestrator, in program order. -/
inductive OrchEvent
  | spawnWorker (i : Nat)
  | sleepSec (n : Nat)
  | setSignal
  | joinThread (i : Nat) (timeout : Nat)
deriving Repr, DecidableEq

/-- Spawn phase of run for n targets: each loop iteration starts one thread
and then sleeps one second. -/
def spawnEvents : Nat → List OrchEvent
  | 0 => []
  | Nat.succ n => spawnEvents n ++ [.spawnWorker n, .sleepSec 1]

/-- Spawn phase of run over the target list. -/
def runSpawnEvents (targets : List TargetSpec) : List OrchEvent :=
  spawnEvents targets.length

/-- Whether an orchestrator event is a worker spawn. -/
def isSpawn : OrchEvent → Bool
  | .spawnWorker _ => true
  | _ => false

/-- The polling loop of _wait_for_completion, started at tick t with the
given fuel: returns the tick at which no worker is alive, or none if the
fuel runs out first.  alive gives the liveness of each worker at each tick. -/
def waitForCompletion (alive : Nat → List Bool) : Nat → Nat → Option Nat
  | _, 0 => none
  | t, Nat.succ fuel =>
    if (alive t).any (fun b => b) then waitForCompletion alive (t + 1) fuel
    else some t

/-- Events of stop_all_recordings given the liveness of each worker when it
runs: set the stop event, then join each alive thread with timeout 5. -/
def stopAllEvents (aliveStatus : List Bool) : List OrchEvent :=
  .setSignal ::
    aliveStatus.enum.filterMap
      (fun p => if p.2 then some (.joinThread p.1 5) else none)

theorem spawnEvents_count (n : Nat) : (spawnEvents n).countP isSpawn = n := by
  induction n with
  | zero => rfl
  | succ n ih => simp [spawnEvents, List.countP_append, ih, isSpawn, List.countP_cons]

theorem spawnEvents_stagger (n i : Nat) (h : i < n) :
    List.IsInfix [.spawnWorker i, .sleepSec 1] (spawnEvents n) := by
  induction n with
  | zero => omega
  | succ n ih =>
    by_cases hi : i < n
    · obtain ⟨s, t, hst⟩ := ih hi
      exact ⟨s, t ++ [.spawnWorker n, .sleepSec 1], by
        rw [spawnEvents, ← hst]; simp⟩
    · have : i = n := by omega
      subst this
      exact ⟨spawnEvents i, [], by simp [spawnEvents]⟩

/-- C9: the orchestrator spawns exactly one worker per target, each spawn is
immediately followed by the one-second stagger sleep, the completion wait
returns only at a tick where no worker is alive, and after cancellation each
still-alive worker is joined with the five-second timeout, the signal having
been set first. -/
theorem c9_orchestrator :
    (∀ targets : List TargetSpec, targets ≠ [] →
      (runSpawnEvents targets).countP isSpawn = targets.length) ∧
    (∀ (targets : List TargetSpec) (i : Nat), i < targets.length →
      List.IsInfix [.spawnWorker i, .sleepSec 1] (runSpawnEvents targets)) ∧
    (∀ (alive : Nat → List Bool) (t0 fuel t : Nat),
      waitForCompletion alive t0 fuel = some t →
        ∀ b ∈ alive t, b = false) ∧
    (∀ (s : List Bool) (i tmo : Nat),
      OrchEvent.joinThread i tmo ∈ stopAllEvents s → tmo = 5) ∧
    (∀ s : List Bool, (stopAllEvents s).get? 0 = some .setSignal) := by
  refine ⟨?_, ?_, ?_, ?_, ?_⟩
  · intro targets _; exact spawnEvents_count targets.length
  · intro targets i h; exact spawnEvents_stagger targets.length i h
  · intro alive t0 fuel
    induction fuel generalizing t0 with
    | zero => intro t h; simp [waitForCompletion] at h
    | succ fuel ih =>
      intro t h
      by_cases ha : (alive t0).any (fun b => b)
      · exact ih (t0 + 1) t (by simpa [waitForCompletion, ha] using h)
      · have ht : t0 = t := by
          simpa [waitForCompletion, ha] using h
        subst ht
        intro b hb
        by_contra hbf
        have hbt : b = true := by cases b <;> simp_all
        subst hbt
        exact ha (List.any_eq_true.mpr ⟨true, hb, rfl⟩)
  · intro s i tmo h
    simp only [stopAllEvents, List.mem_cons] at h
    rcases h with h | h
    · simp at h
    · rw [List.mem_filterMap] at h
      obtain ⟨p, _, hf⟩ := h
      by_cases hb : p.2
      · simp only [hb, if_true, Option.some.injEq] at hf
        cases hf
        rfl
      · simp [hb] at hf
  · intro s; rfl

/-- Witness for c9_orchestrator at concrete inputs. -/
theorem c9_orchestrator_witness :
    (runSpawnEvents [(none, some "alice", none)]).countP isSpawn =
      [((none : Option String), some "alice", (none : Option String))].length ∧
    List.IsInfix [.spawnWorker 0, .sleepSec 1]
      (runSpawnEvents [(none, some "alice", none)]) ∧
    (∀ b ∈ (fun _ => [false, false] : Nat → List Bool) 0, b = false) ∧
    (OrchEvent.joinThread 0 5 ∈ stopAllEvents [true] → (5 : Nat) = 5) :=
  ⟨c9_orchestrator.1 [(none, some "alice", none)] (by simp),
   c9_orchestrator.2.1 [(none, some "alice", none)] 0 (by simp),
   c9_orchestrator.2.2.1 (fun _ => [false, false]) 0 1 0 rfl,
   fun h => c9_orchestrator.2.2.2.1 [true] 0 5 h⟩

/-- Target-list selection of main.py multi-stream mode: urls, then users,
then room ids, by Python truthiness of the argument lists. -/
def buildTargets (urls users roomIds : List String) : List TargetSpec :=
  if urls ≠ [] then urls.map (fun u => (some u, none, none))
  else if users ≠ [] then users.map (fun u => (none, some u, none))
  else if roomIds ≠ [] then roomIds.map (fun r => (none, none, some r))
  else []

/-- C10: when several of the multi-stream input lists are supplied, only the
first non-empty one in the order urls, users, room ids becomes the target
list, and the contents of the later lists do not influence the result. -/
theorem c10_first_list_wins :
    (∀ urls users roomIds : List String, urls ≠ [] →
      buildTargets urls users roomIds = urls.map (fun u => (some u, none, none))) ∧
    (∀ users roomIds : List String, users ≠ [] →
      buildTargets [] users roomIds = users.map (fun u => (none, some u, none))) ∧
    (∀ roomIds : List String, roomIds ≠ [] →
      buildTargets [] [] roomIds = roomIds.map (fun r => (none, none, some r))) ∧
    (∀ urls users roomIds users' roomIds' : List String, urls ≠ [] →
      buildTargets urls users roomIds = buildTargets urls users' roomIds') ∧
    (∀ users roomIds roomIds' : List String, users ≠ [] →
      buildTargets [] users roomIds = buildTargets [] users roomIds') := by
  refine ⟨?_, ?_, ?_, ?_, ?_⟩
  · intro urls users roomIds h; simp [buildTargets, h]
  · intro users roomIds h; simp [buildTargets, h]
  · intro roomIds h; simp [buildTargets, h]
  · intro urls users roomIds users' roomIds' h; simp [buildTargets, h]
  · intro users roomIds roomIds' h; simp [buildTargets, h]

/-- Witness for c10_first_list_wins at concrete inputs. -/
theorem c10_first_list_wins_witness :
    buildTargets ["u1"] ["alice"] ["42"] =
      [("u1", "", "")].map (fun _ => ((some "u1" : Option String), (none : Option String), (none : Option String))) ∧
    buildTargets [] ["alice"] ["42"] =
      ["alice"].map (fun u => ((none : Option String), some u, (none : Option String))) ∧
    buildTargets [] [] ["42"] =
      ["42"].map (fun r => ((none : Option String), (none : Option String), some r)) ∧
    buildTargets ["u1"] ["alice"] ["42"] = buildTargets ["u1"] [] [] ∧
    buildTargets [] ["alice"] ["42"] = buildTargets [] ["alice"] [] :=
  ⟨c10_first_list_wins.1 ["u1"] ["alice"] ["42"] (by simp),
   c10_first_list_wins.2.1 ["alice"] ["42"] (by simp),
   c10_first_list_wins.2.2.1 ["42"] (by simp),
   c10_first_list_wins.2.2.2.1 ["u1"] ["alice"] ["42"] [] [] (by simp),
   c10_first_list_wins.2.2.2.2 ["alice"] ["42"] [] (by simp)⟩

end MultiStreamRecorder
